import Mathlib

/-!
Shallow embedding of `src/sharedMethods/summaryHandler.js` from the
cy-shadow-report repository.

The module orchestrates a "summary sheet" write pipeline against the Google
Sheets API.  Every remote collaborator (tab lookup, resize, the two batch-update
endpoints, and the upstream collaborators imported at the top of the file) is
modelled as a field of an `Env` record returning `Except String` results: an
`Except.error` models a rejected promise / thrown error, with the error's
message as the `String`.  Each source function is translated to a pure Lean
function over `Env` that returns the list of observable events it performs
(remote calls and `console.error` logs) together with its result.  `console.error`
with several arguments is modelled as one log message joining them with a space.
-/

namespace CyShadowReport

/-- A JavaScript number as produced by `Math.max`: either `-Infinity`
(the result of `Math.max()` with no arguments, i.e. spreading an empty array)
or an integer.  `endRowIndex` values are integers, so no other values arise. -/
inductive JsNum
  | negInf
  | int (n : Int)
deriving Repr, DecidableEq

/-- One step of `Math.max`: combining one more integer argument with the
maximum of the remaining arguments. -/
def jmax (x : Int) : JsNum → JsNum
  | JsNum.negInf => JsNum.int x
  | JsNum.int m => JsNum.int (max x m)

/-- `Math.max(...xs)` for a list of integer arguments:
`-Infinity` on the empty list, otherwise the maximum. -/
def jsMathMax (xs : List Int) : JsNum :=
  xs.foldr jmax JsNum.negInf

/-- The `copyPaste.destination` region of a body-payload entry. -/
structure Destination where
  startRowIndex : Int
  endRowIndex : Int
deriving Repr, DecidableEq

/-- The `copyPaste` field of a body-payload entry. -/
structure CopyPaste where
  destination : Destination
deriving Repr, DecidableEq

/-- One entry of `fullSummaryPayload.bodyPayload`: a copy-paste request. -/
structure BodyEntry where
  copyPaste : CopyPaste
deriving Repr, DecidableEq

/-- One entry of `fullSummaryPayload.headerPayload`: a range/values pair for
`sheets.spreadsheets.values.batchUpdate`. -/
structure HeaderEntry where
  range : String
  values : List (List String)
deriving Repr, DecidableEq

/-- The `summaryHeaderStylePayload`: a single structured request (e.g. a
`mergeCells` object); its content is not inspected by the handler, so it is
kept as raw data. -/
structure StyleRequest where
  mergeCells : String
deriving Repr, DecidableEq

/-- The `summaryGridStyles` payload: a single structured request (e.g. an
`updateCells` object); its content is not inspected by the handler. -/
structure GridRequest where
  updateCells : String
deriving Repr, DecidableEq

/-- A value placed in the `requests` array of a
`sheets.spreadsheets.batchUpdate` call.  `sendSummaryBody` puts the whole
`bodyPayload` array there as a single element (`requests: [payload]`),
`summaryHeaderStyling` a style request, `sendSummaryGrid` a grid request. -/
inductive BatchPayload
  | bodyList (entries : List BodyEntry)
  | style (s : StyleRequest)
  | grid (g : GridRequest)
deriving Repr, DecidableEq

/-- The aggregate produced by `constructPayloadForCopyPaste`. -/
structure FullSummaryPayload where
  headerPayload : List HeaderEntry
  bodyPayload : List BodyEntry
  summaryHeaderStylePayload : StyleRequest
  summaryGridStyles : GridRequest
deriving Repr, DecidableEq

/-- Observable events of a run: remote API calls and `console.error` logs.
`batchUpdate`'s boolean records whether the request body was passed under the
`resource` key (body and grid writes) or the `requestBody` key (styling). -/
inductive Event
  | createTab (title : String)
  | tabLookup (title : String)
  | resize (tabId : Nat) (cols : Nat) (rows : JsNum)
  | valuesUpdate (data : List HeaderEntry)
  | batchUpdate (viaResource : Bool) (requests : List BatchPayload)
  | logError (msg : String)
deriving Repr, DecidableEq

/-- The ambient environment: the module-level `spreadsheetId` from `auth.js`,
the `HEADER_INDICATORS` constant from `constants.js` (neither file is under
`src/`, so both are inputs of the model), and the result of every remote
collaborator call the handler can make. -/
structure Env where
  spreadsheetId : String
  headerIndicators : List String
  getExistingTabTitlesInRange : Except String (List String)
  getLastMonthTabTitles : List String → Except String (List String)
  createSummaryTitle : String
  createNewTab : String → Except String Unit
  constructPayloadForCopyPaste :
    List String → String → Except String FullSummaryPayload
  getTabIdFromTitle : String → Except String Nat
  addColumnsAndRowsToTabId : Nat → Nat → JsNum → Except String Unit
  valuesBatchUpdate : List HeaderEntry → Except String Unit
  batchUpdate : List BatchPayload → Except String Unit

/-- `lastMonthSheetTitles.length * headerIndicators.length`
(summaryHandler.js lines 69-70). -/
def numberOfColumnsNeeded (lastMonthSheetTitles headerIndicators : List String) : Nat :=
  lastMonthSheetTitles.length * headerIndicators.length

/-- `Math.max(...payload.map((item) => item.copyPaste.destination.endRowIndex))`
(summaryHandler.js lines 72-74). -/
def numberOfRowsNeeded (payload : List BodyEntry) : JsNum :=
  jsMathMax (payload.map (fun item => item.copyPaste.destination.endRowIndex))

/-- `sendSummaryBody(payload)` (lines 32-44): one `batchUpdate` call with
`resource.requests = [payload]`; a failure is caught and logged, never
rethrown. -/
def sendSummaryBody (env : Env) (payload : List BodyEntry) : List Event :=
  match env.batchUpdate [BatchPayload.bodyList payload] with
  | Except.ok _ => [Event.batchUpdate true [BatchPayload.bodyList payload]]
  | Except.error e =>
      [Event.batchUpdate true [BatchPayload.bodyList payload],
       Event.logError ("Error writing to project: " ++ env.spreadsheetId ++ " " ++ e)]

/-- The call site of `sendSummaryBody` in `handleSummary` (line 234) passes
`summaryPageTitle` as a second argument, but the function is declared with a
single parameter, so JavaScript drops the extra argument. -/
def sendSummaryBodyCall (env : Env) (payload : List BodyEntry)
    (_destinationTabTitle : String) : List Event :=
  sendSummaryBody env payload

/-- `addColumnsAndRows(...)` (lines 61-86): compute the needed dimensions,
resolve the destination tab title to an id, request the resize.  Any failure
inside the `try` is logged and rethrown as a fresh
`Error('Unable to add columns and rows to the sheet.')`. -/
def addColumnsAndRows (env : Env) (summaryPageTitle : String)
    (lastMonthSheetTitles headerIndicators : List String)
    (payload : List BodyEntry) (destinationTabTitle : String) :
    List Event × Except String Unit :=
  match env.getTabIdFromTitle destinationTabTitle with
  | Except.error e =>
      ([Event.tabLookup destinationTabTitle,
        Event.logError ("Error in adding columns and rows: " ++ e)],
       Except.error "Unable to add columns and rows to the sheet.")
  | Except.ok destinationTabId =>
      match env.addColumnsAndRowsToTabId destinationTabId
          (numberOfColumnsNeeded lastMonthSheetTitles headerIndicators)
          (numberOfRowsNeeded payload) with
      | Except.error e =>
          ([Event.tabLookup destinationTabTitle,
            Event.resize destinationTabId
              (numberOfColumnsNeeded lastMonthSheetTitles headerIndicators)
              (numberOfRowsNeeded payload),
            Event.logError ("Error in adding columns and rows: " ++ e)],
           Except.error "Unable to add columns and rows to the sheet.")
      | Except.ok _ =>
          ([Event.tabLookup destinationTabTitle,
            Event.resize destinationTabId
              (numberOfColumnsNeeded lastMonthSheetTitles headerIndicators)
              (numberOfRowsNeeded payload)],
           Except.ok ())

/-- `sendSummaryHeaders(payload)` (lines 113-126): one
`sheets.spreadsheets.values.batchUpdate` call; a failure is caught and logged,
never rethrown. -/
def sendSummaryHeaders (env : Env) (payload : List HeaderEntry) : List Event :=
  match env.valuesBatchUpdate payload with
  | Except.ok _ => [Event.valuesUpdate payload]
  | Except.error e =>
      [Event.valuesUpdate payload, Event.logError ("An error occurred: " ++ e)]

/-- `sendSummaryGrid(payload)` (lines 151-171): one `batchUpdate` call with
`resource.requests = [payload]`; errors are logged (by the callback or the
surrounding catch), never rethrown. -/
def sendSummaryGrid (env : Env) (payload : GridRequest) : List Event :=
  match env.batchUpdate [BatchPayload.grid payload] with
  | Except.ok _ => [Event.batchUpdate true [BatchPayload.grid payload]]
  | Except.error e =>
      [Event.batchUpdate true [BatchPayload.grid payload],
       Event.logError ("The API returned an error: " ++ e)]

/-- `summaryHeaderStyling(payload)` (lines 200-212): one `batchUpdate` call
with `requestBody.requests = [payload]`; a failure is caught and logged,
never rethrown. -/
def summaryHeaderStyling (env : Env) (payload : StyleRequest) : List Event :=
  match env.batchUpdate [BatchPayload.style payload] with
  | Except.ok _ => [Event.batchUpdate false [BatchPayload.style payload]]
  | Except.error e =>
      [Event.batchUpdate false [BatchPayload.style payload],
       Event.logError ("An error occurred: " ++ e)]

/-- `handleSummary()` (lines 214-237): the top-level orchestrator.  Upstream
collaborator failures and `addColumnsAndRows` failures propagate (the function
has no try/catch of its own); the three write steps then run in order, each
swallowing its own failures.  The `sendSummaryGrid` call (line 235) is
commented out in the source, so no grid call is made. -/
def handleSummary (env : Env) : List Event × Except String Unit :=
  match env.getExistingTabTitlesInRange with
  | Except.error e => ([], Except.error e)
  | Except.ok existingSheetTitles =>
    match env.getLastMonthTabTitles existingSheetTitles with
    | Except.error e => ([], Except.error e)
    | Except.ok lastMonthSheetTitles =>
      match env.createNewTab env.createSummaryTitle with
      | Except.error e => ([Event.createTab env.createSummaryTitle], Except.error e)
      | Except.ok _ =>
        match env.constructPayloadForCopyPaste lastMonthSheetTitles
            env.createSummaryTitle with
        | Except.error e => ([Event.createTab env.createSummaryTitle], Except.error e)
        | Except.ok fullSummaryPayload =>
          match addColumnsAndRows env env.createSummaryTitle lastMonthSheetTitles
              env.headerIndicators fullSummaryPayload.bodyPayload
              env.createSummaryTitle with
          | (provEvents, Except.error e) =>
              (Event.createTab env.createSummaryTitle :: provEvents, Except.error e)
          | (provEvents, Except.ok _) =>
              (Event.createTab env.createSummaryTitle :: provEvents
                ++ sendSummaryHeaders env fullSummaryPayload.headerPayload
                ++ sendSummaryBodyCall env fullSummaryPayload.bodyPayload
                    env.createSummaryTitle
                ++ summaryHeaderStyling env fullSummaryPayload.summaryHeaderStylePayload,
               Except.ok ())

/-- The four kinds of remote write the module can perform. -/
inductive WriteKind
  | header
  | body
  | styling
  | grid
deriving Repr, DecidableEq

/-- Classify an event as one of the write calls (the provisioning calls and
log lines are not writes). -/
def eventWriteKind : Event → Option WriteKind
  | Event.valuesUpdate _ => some WriteKind.header
  | Event.batchUpdate _ [BatchPayload.bodyList _] => some WriteKind.body
  | Event.batchUpdate _ [BatchPayload.style _] => some WriteKind.styling
  | Event.batchUpdate _ [BatchPayload.grid _] => some WriteKind.grid
  | _ => none

/-- The sequence of write calls occurring in a trace, in order. -/
def writeKinds (tr : List Event) : List WriteKind :=
  tr.filterMap eventWriteKind

/-! ### Lemmas about `Math.max` -/

theorem jsMathMax_cons (x : Int) (xs : List Int) :
    jsMathMax (x :: xs) = jmax x (jsMathMax xs) := rfl

theorem jmax_left_comm (a b : Int) (z : JsNum) :
    jmax a (jmax b z) = jmax b (jmax a z) := by
  cases z with
  | negInf => simp [jmax, max_comm]
  | int m => simp [jmax, max_left_comm]

/-- On a non-empty argument list, `Math.max` returns an integer that is an
element of the list and an upper bound of it. -/
theorem jsMathMax_spec (xs : List Int) (h : xs ≠ []) :
    ∃ m : Int, jsMathMax xs = JsNum.int m ∧ m ∈ xs ∧ ∀ y ∈ xs, y ≤ m := by
  induction xs with
  | nil => exact absurd rfl h
  | cons x xs ih =>
    cases xs with
    | nil => exact ⟨x, rfl, List.mem_singleton.mpr rfl, by simp⟩
    | cons y ys =>
      obtain ⟨m, hm, hmem, hb⟩ := ih (by simp)
      refine ⟨max x m, ?_, ?_, ?_⟩
      · rw [jsMathMax_cons, hm]; rfl
      · rcases max_choice x m with hc | hc <;> rw [hc]
        · exact List.mem_cons_self x _
        · exact List.mem_cons_of_mem x hmem
      · intro z hz
        rcases List.mem_cons.mp hz with rfl | hz
        · exact le_max_left _ _
        · exact le_trans (hb z hz) (le_max_right _ _)

/-- `Math.max` does not depend on the order of its arguments. -/
theorem jsMathMax_perm {xs ys : List Int} (h : xs.Perm ys) :
    jsMathMax xs = jsMathMax ys := by
  induction h with
  | nil => rfl
  | cons x _ ih => rw [jsMathMax_cons, jsMathMax_cons, ih]
  | swap x y l =>
      rw [jsMathMax_cons, jsMathMax_cons, jsMathMax_cons, jsMathMax_cons,
        jmax_left_comm]
  | trans _ _ ih1 ih2 => rw [ih1, ih2]

/-! ### Lemmas about event traces -/

theorem writeKinds_append (a b : List Event) :
    writeKinds (a ++ b) = writeKinds a ++ writeKinds b :=
  List.filterMap_append a b eventWriteKind

/-- Provisioning performs no write call: every trace of `addColumnsAndRows`
consists only of the tab lookup, the resize request and possibly a log. -/
theorem addColumnsAndRows_writeKinds (env : Env) (t : String)
    (ls hi : List String) (p : List BodyEntry) (d : String) :
    writeKinds (addColumnsAndRows env t ls hi p d).1 = [] := by
  unfold addColumnsAndRows
  rcases env.getTabIdFromTitle d with e | tid
  · rfl
  · rcases h2 : env.addColumnsAndRowsToTabId tid (numberOfColumnsNeeded ls hi)
      (numberOfRowsNeeded p) with e | u <;> simp [h2, writeKinds, eventWriteKind]

/-- The header step performs exactly one write call, a header write. -/
theorem sendSummaryHeaders_writeKinds (env : Env) (p : List HeaderEntry) :
    writeKinds (sendSummaryHeaders env p) = [WriteKind.header] := by
  unfold sendSummaryHeaders
  rcases env.valuesBatchUpdate p with e | u <;> rfl

/-- The body step performs exactly one write call, a body write. -/
theorem sendSummaryBody_writeKinds (env : Env) (p : List BodyEntry) :
    writeKinds (sendSummaryBody env p) = [WriteKind.body] := by
  unfold sendSummaryBody
  rcases env.batchUpdate [BatchPayload.bodyList p] with e | u <;> rfl

/-- The styling step performs exactly one write call, a styling write. -/
theorem summaryHeaderStyling_writeKinds (env : Env) (p : StyleRequest) :
    writeKinds (summaryHeaderStyling env p) = [WriteKind.styling] := by
  unfold summaryHeaderStyling
  rcases env.batchUpdate [BatchPayload.style p] with e | u <;> rfl

/-- The body step as called from `handleSummary` performs exactly one write
call, a body write, whatever the dropped second argument is. -/
theorem sendSummaryBodyCall_writeKinds (env : Env) (p : List BodyEntry)
    (t : String) :
    writeKinds (sendSummaryBodyCall env p t) = [WriteKind.body] :=
  sendSummaryBody_writeKinds env p

/-- The grid step, when invoked, performs exactly one write call, a grid
write. -/
theorem sendSummaryGrid_writeKinds (env : Env) (p : GridRequest) :
    writeKinds (sendSummaryGrid env p) = [WriteKind.grid] := by
  unfold sendSummaryGrid
  rcases env.batchUpdate [BatchPayload.grid p] with e | u <;> rfl

/-- The header write call itself is always attempted (its event is in the
step's trace), whether the remote call succeeds or fails. -/
theorem sendSummaryHeaders_call_mem (env : Env) (p : List HeaderEntry) :
    Event.valuesUpdate p ∈ sendSummaryHeaders env p := by
  unfold sendSummaryHeaders
  rcases env.valuesBatchUpdate p with e | u <;> simp

/-- The body write call itself is always attempted. -/
theorem sendSummaryBody_call_mem (env : Env) (p : List BodyEntry) :
    Event.batchUpdate true [BatchPayload.bodyList p] ∈ sendSummaryBody env p := by
  unfold sendSummaryBody
  rcases env.batchUpdate [BatchPayload.bodyList p] with e | u <;> simp

/-- The styling write call itself is always attempted. -/
theorem summaryHeaderStyling_call_mem (env : Env) (p : StyleRequest) :
    Event.batchUpdate false [BatchPayload.style p] ∈ summaryHeaderStyling env p := by
  unfold summaryHeaderStyling
  rcases env.batchUpdate [BatchPayload.style p] with e | u <;> simp

/-- When the tab lookup succeeds, `addColumnsAndRows` issues the resize
request with the planned dimensions, whether or not the resize succeeds. -/
theorem addColumnsAndRows_resize_mem (env : Env) (t : String)
    (ls hi : List String) (p : List BodyEntry) (d : String) (tid : Nat)
    (h : env.getTabIdFromTitle d = Except.ok tid) :
    Event.resize tid (numberOfColumnsNeeded ls hi) (numberOfRowsNeeded p)
      ∈ (addColumnsAndRows env t ls hi p d).1 := by
  unfold addColumnsAndRows
  rw [h]
  rcases h2 : env.addColumnsAndRowsToTabId tid (numberOfColumnsNeeded ls hi)
    (numberOfRowsNeeded p) with e | u <;> simp [h2]

/-- Inversion: a successful `addColumnsAndRows` run means the lookup and the
resize both succeeded, and its trace is exactly the lookup followed by the
resize. -/
theorem addColumnsAndRows_ok_inv (env : Env) (t : String)
    (ls hi : List String) (p : List BodyEntry) (d : String)
    (h : (addColumnsAndRows env t ls hi p d).2 = Except.ok ()) :
    ∃ tid : Nat, env.getTabIdFromTitle d = Except.ok tid
      ∧ (addColumnsAndRows env t ls hi p d).1
          = [Event.tabLookup d,
             Event.resize tid (numberOfColumnsNeeded ls hi) (numberOfRowsNeeded p)] := by
  unfold addColumnsAndRows at h ⊢
  rcases h1 : env.getTabIdFromTitle d with e | tid
  · rw [h1] at h; simp at h
  · rw [h1] at h
    dsimp only at h ⊢
    rcases h2 : env.addColumnsAndRowsToTabId tid (numberOfColumnsNeeded ls hi)
      (numberOfRowsNeeded p) with e | u
    · rw [h2] at h; simp at h
    · exact ⟨tid, rfl, rfl⟩

/-- Shape of a run in which every upstream collaborator and the provisioning
stage succeed: the trace is the tab creation, the provisioning events, then
the three write steps in order, and the result is success. -/
theorem handleSummary_success_shape (env : Env) (ts ls : List String)
    (fp : FullSummaryPayload)
    (h1 : env.getExistingTabTitlesInRange = Except.ok ts)
    (h2 : env.getLastMonthTabTitles ts = Except.ok ls)
    (h3 : env.createNewTab env.createSummaryTitle = Except.ok ())
    (h4 : env.constructPayloadForCopyPaste ls env.createSummaryTitle = Except.ok fp)
    (h5 : (addColumnsAndRows env env.createSummaryTitle ls env.headerIndicators
        fp.bodyPayload env.createSummaryTitle).2 = Except.ok ()) :
    handleSummary env =
      (Event.createTab env.createSummaryTitle
          :: (addColumnsAndRows env env.createSummaryTitle ls env.headerIndicators
              fp.bodyPayload env.createSummaryTitle).1
        ++ sendSummaryHeaders env fp.headerPayload
        ++ sendSummaryBodyCall env fp.bodyPayload env.createSummaryTitle
        ++ summaryHeaderStyling env fp.summaryHeaderStylePayload,
       Except.ok ()) := by
  unfold handleSummary
  simp only [h1, h2, h3, h4]
  rcases hp : addColumnsAndRows env env.createSummaryTitle ls env.headerIndicators
      fp.bodyPayload env.createSummaryTitle with ⟨tr, res⟩
  rcases res with e | u
  · rw [hp] at h5; simp at h5
  · rfl

/-- Shape of a run in which every upstream collaborator succeeds but the
provisioning stage throws: the error propagates as the result and the trace
stops after the provisioning events. -/
theorem handleSummary_prov_error_shape (env : Env) (ts ls : List String)
    (fp : FullSummaryPayload) (e : String)
    (h1 : env.getExistingTabTitlesInRange = Except.ok ts)
    (h2 : env.getLastMonthTabTitles ts = Except.ok ls)
    (h3 : env.createNewTab env.createSummaryTitle = Except.ok ())
    (h4 : env.constructPayloadForCopyPaste ls env.createSummaryTitle = Except.ok fp)
    (h5 : (addColumnsAndRows env env.createSummaryTitle ls env.headerIndicators
        fp.bodyPayload env.createSummaryTitle).2 = Except.error e) :
    handleSummary env =
      (Event.createTab env.createSummaryTitle
          :: (addColumnsAndRows env env.createSummaryTitle ls env.headerIndicators
              fp.bodyPayload env.createSummaryTitle).1,
       Except.error e) := by
  unfold handleSummary
  simp only [h1, h2, h3, h4]
  rcases hp : addColumnsAndRows env env.createSummaryTitle ls env.headerIndicators
      fp.bodyPayload env.createSummaryTitle with ⟨tr, res⟩
  rcases res with e2 | u
  · rw [hp] at h5
    have he : e2 = e := by simpa using h5
    subst he
    rfl
  · rw [hp] at h5; simp at h5

/-- Inversion: a successful `handleSummary` run means every upstream
collaborator call and the provisioning stage succeeded. -/
theorem handleSummary_ok_inv (env : Env)
    (h : (handleSummary env).2 = Except.ok ()) :
    ∃ (ts ls : List String) (fp : FullSummaryPayload),
      env.getExistingTabTitlesInRange = Except.ok ts
      ∧ env.getLastMonthTabTitles ts = Except.ok ls
      ∧ env.createNewTab env.createSummaryTitle = Except.ok ()
      ∧ env.constructPayloadForCopyPaste ls env.createSummaryTitle = Except.ok fp
      ∧ (addColumnsAndRows env env.createSummaryTitle ls env.headerIndicators
          fp.bodyPayload env.createSummaryTitle).2 = Except.ok () := by
  unfold handleSummary at h
  rcases h1 : env.getExistingTabTitlesInRange with e | ts
  · rw [h1] at h; simp at h
  · rw [h1] at h
    dsimp only at h
    rcases h2 : env.getLastMonthTabTitles ts with e | ls
    · rw [h2] at h; simp at h
    · rw [h2] at h
      dsimp only at h
      rcases h3 : env.createNewTab env.createSummaryTitle with e | u3
      · rw [h3] at h; simp at h
      · rw [h3] at h
        dsimp only at h
        rcases h4 : env.constructPayloadForCopyPaste ls env.createSummaryTitle
            with e | fp
        · rw [h4] at h; simp at h
        · rw [h4] at h
          dsimp only at h
          rcases hp : addColumnsAndRows env env.createSummaryTitle ls
              env.headerIndicators fp.bodyPayload env.createSummaryTitle
              with ⟨tr, res⟩
          rcases res with e | u
          · rw [hp] at h; simp at h
          · exact ⟨ts, ls, fp, rfl, h2, rfl, h4, by rw [hp]⟩

/-- Any event of the provisioning trace appears in the full pipeline trace,
as soon as the upstream collaborators succeed (whether or not provisioning
itself then succeeds). -/
theorem handleSummary_prov_trace_mem (env : Env) (ts ls : List String)
    (fp : FullSummaryPayload)
    (h1 : env.getExistingTabTitlesInRange = Except.ok ts)
    (h2 : env.getLastMonthTabTitles ts = Except.ok ls)
    (h3 : env.createNewTab env.createSummaryTitle = Except.ok ())
    (h4 : env.constructPayloadForCopyPaste ls env.createSummaryTitle = Except.ok fp)
    (ev : Event)
    (hev : ev ∈ (addColumnsAndRows env env.createSummaryTitle ls
        env.headerIndicators fp.bodyPayload env.createSummaryTitle).1) :
    ev ∈ (handleSummary env).1 := by
  unfold handleSummary
  simp only [h1, h2, h3, h4]
  rcases hp : addColumnsAndRows env env.createSummaryTitle ls env.headerIndicators
      fp.bodyPayload env.createSummaryTitle with ⟨tr, res⟩
  rw [hp] at hev
  rcases res with e | u
  · exact List.mem_cons_of_mem _ hev
  · exact List.mem_cons_of_mem _ (List.mem_append_left _
      (List.mem_append_left _ (List.mem_append_left _ hev)))

/-- Every run of `handleSummary` performs either no write call at all or
exactly the three write calls header, body, styling, in that order. -/
theorem handleSummary_writeKinds_cases (env : Env) :
    writeKinds (handleSummary env).1 = []
    ∨ writeKinds (handleSummary env).1
        = [WriteKind.header, WriteKind.body, WriteKind.styling] := by
  unfold handleSummary
  rcases h1 : env.getExistingTabTitlesInRange with e | ts
  · left; rfl
  · dsimp only
    rcases h2 : env.getLastMonthTabTitles ts with e | ls
    · left; rfl
    · dsimp only
      rcases h3 : env.createNewTab env.createSummaryTitle with e | u3
      · left; rfl
      · dsimp only
        rcases h4 : env.constructPayloadForCopyPaste ls env.createSummaryTitle
            with e | fp
        · left; rfl
        · dsimp only
          rcases hp : addColumnsAndRows env env.createSummaryTitle ls
              env.headerIndicators fp.bodyPayload env.createSummaryTitle
              with ⟨tr, res⟩
          have htr : writeKinds tr = [] := by
            have hw := addColumnsAndRows_writeKinds env env.createSummaryTitle ls
              env.headerIndicators fp.bodyPayload env.createSummaryTitle
            rw [hp] at hw
            exact hw
          rcases res with e | u
          · left
            show writeKinds tr = []
            exact htr
          · right
            show writeKinds (tr ++ sendSummaryHeaders env fp.headerPayload
              ++ sendSummaryBodyCall env fp.bodyPayload env.createSummaryTitle
              ++ summaryHeaderStyling env fp.summaryHeaderStylePayload) = _
            rw [writeKinds_append, writeKinds_append, writeKinds_append, htr,
              sendSummaryHeaders_writeKinds, sendSummaryBodyCall_writeKinds,
              summaryHeaderStyling_writeKinds]
            rfl

/-- In a run whose upstream collaborators and provisioning succeed, the
sequence of write calls is exactly header, body, styling. -/
theorem handleSummary_success_writeKinds (env : Env) (ts ls : List String)
    (fp : FullSummaryPayload)
    (h1 : env.getExistingTabTitlesInRange = Except.ok ts)
    (h2 : env.getLastMonthTabTitles ts = Except.ok ls)
    (h3 : env.createNewTab env.createSummaryTitle = Except.ok ())
    (h4 : env.constructPayloadForCopyPaste ls env.createSummaryTitle = Except.ok fp)
    (h5 : (addColumnsAndRows env env.createSummaryTitle ls env.headerIndicators
        fp.bodyPayload env.createSummaryTitle).2 = Except.ok ()) :
    writeKinds (handleSummary env).1
      = [WriteKind.header, WriteKind.body, WriteKind.styling] := by
  rw [handleSummary_success_shape env ts ls fp h1 h2 h3 h4 h5]
  show writeKinds ((addColumnsAndRows env env.createSummaryTitle ls
      env.headerIndicators fp.bodyPayload env.createSummaryTitle).1
    ++ sendSummaryHeaders env fp.headerPayload
    ++ sendSummaryBodyCall env fp.bodyPayload env.createSummaryTitle
    ++ summaryHeaderStyling env fp.summaryHeaderStylePayload) = _
  rw [writeKinds_append, writeKinds_append, writeKinds_append,
    addColumnsAndRows_writeKinds, sendSummaryHeaders_writeKinds,
    sendSummaryBodyCall_writeKinds, summaryHeaderStyling_writeKinds]
  rfl

/-- A failed header write leaves its log line in the step's trace. -/
theorem sendSummaryHeaders_error_log (env : Env) (p : List HeaderEntry)
    (msg : String) (h : env.valuesBatchUpdate p = Except.error msg) :
    Event.logError ("An error occurred: " ++ msg) ∈ sendSummaryHeaders env p := by
  unfold sendSummaryHeaders
  rw [h]
  simp

/-! ### Concrete environments used as witnesses and counterexamples -/

/-- A body entry whose copy-paste destination covers rows `s` to `e`. -/
def mkEntry (s e : Int) : BodyEntry :=
  { copyPaste := { destination := { startRowIndex := s, endRowIndex := e } } }

/-- A body payload whose destination end rows are 5, 12 and 8. -/
def sampleBody : List BodyEntry := [mkEntry 0 5, mkEntry 0 12, mkEntry 0 8]

/-- A concrete full payload. -/
def samplePayload : FullSummaryPayload :=
  { headerPayload := [{ range := "Summary Jan!A1", values := [["Hours", "Cost"]] }],
    bodyPayload := sampleBody,
    summaryHeaderStylePayload := { mergeCells := "merge-header-row" },
    summaryGridStyles := { updateCells := "grid-borders" } }

/-- `samplePayload` with an empty body payload. -/
def samplePayloadEmptyBody : FullSummaryPayload :=
  { samplePayload with bodyPayload := [] }

/-- Environment in which every collaborator succeeds. -/
def envA : Env :=
  { spreadsheetId := "sheet-1",
    headerIndicators := ["Hours", "Cost"],
    getExistingTabTitlesInRange := Except.ok ["Jan-1", "Jan-2"],
    getLastMonthTabTitles := fun _ => Except.ok ["Jan-1", "Jan-2"],
    createSummaryTitle := "Summary Jan",
    createNewTab := fun _ => Except.ok (),
    constructPayloadForCopyPaste := fun _ _ => Except.ok samplePayload,
    getTabIdFromTitle := fun _ => Except.ok 7,
    addColumnsAndRowsToTabId := fun _ _ _ => Except.ok (),
    valuesBatchUpdate := fun _ => Except.ok (),
    batchUpdate := fun _ => Except.ok () }

/-- Like `envA`, but the constructed body payload is empty. -/
def env0 : Env :=
  { envA with constructPayloadForCopyPaste :=
      fun _ _ => Except.ok samplePayloadEmptyBody }

/-- Like `envA`, but the destination-tab lookup fails. -/
def envLookupFail : Env :=
  { envA with getTabIdFromTitle := fun _ => Except.error "tab not found" }

/-- Like `envA`, but the header-values write fails. -/
def envHeaderFail : Env :=
  { envA with valuesBatchUpdate := fun _ => Except.error "quota" }

/-! ### Claims -/

/-- C1: if provisioning fails — the destination-tab title cannot be resolved
to an id, or the resize request fails, i.e. `addColumnsAndRows` throws — the
error is propagated to the caller of `handleSummary` and none of the three
write operations (header values, body cells, header styling) is ever
invoked. -/
theorem provisioning_failure_blocks_writes (env : Env) (ts ls : List String)
    (fp : FullSummaryPayload) (e : String)
    (h1 : env.getExistingTabTitlesInRange = Except.ok ts)
    (h2 : env.getLastMonthTabTitles ts = Except.ok ls)
    (h3 : env.createNewTab env.createSummaryTitle = Except.ok ())
    (h4 : env.constructPayloadForCopyPaste ls env.createSummaryTitle = Except.ok fp)
    (h5 : (addColumnsAndRows env env.createSummaryTitle ls env.headerIndicators
        fp.bodyPayload env.createSummaryTitle).2 = Except.error e) :
    (handleSummary env).2 = Except.error e
    ∧ writeKinds (handleSummary env).1 = [] := by
  rw [handleSummary_prov_error_shape env ts ls fp e h1 h2 h3 h4 h5]
  exact ⟨rfl, addColumnsAndRows_writeKinds env env.createSummaryTitle ls
    env.headerIndicators fp.bodyPayload env.createSummaryTitle⟩

/-- C1 witness: a concrete run whose destination-tab lookup fails propagates
the wrapped error and performs zero writes. -/
theorem provisioning_failure_blocks_writes_witness :
    (handleSummary envLookupFail).2
        = Except.error "Unable to add columns and rows to the sheet."
    ∧ writeKinds (handleSummary envLookupFail).1 = [] :=
  provisioning_failure_blocks_writes envLookupFail ["Jan-1", "Jan-2"]
    ["Jan-1", "Jan-2"] samplePayload
    "Unable to add columns and rows to the sheet." rfl rfl rfl rfl rfl

/-- C2: each write step runs inside its own failure boundary: when the header
write (`sendSummaryHeaders`) fails, the failure is caught and logged, the
body write (`sendSummaryBody`) is still invoked exactly once (as is the
styling write), and the pipeline completes without raising. -/
theorem header_write_failure_is_isolated (env : Env) (ts ls : List String)
    (fp : FullSummaryPayload) (msg : String)
    (h1 : env.getExistingTabTitlesInRange = Except.ok ts)
    (h2 : env.getLastMonthTabTitles ts = Except.ok ls)
    (h3 : env.createNewTab env.createSummaryTitle = Except.ok ())
    (h4 : env.constructPayloadForCopyPaste ls env.createSummaryTitle = Except.ok fp)
    (h5 : (addColumnsAndRows env env.createSummaryTitle ls env.headerIndicators
        fp.bodyPayload env.createSummaryTitle).2 = Except.ok ())
    (h6 : env.valuesBatchUpdate fp.headerPayload = Except.error msg) :
    (handleSummary env).2 = Except.ok ()
    ∧ (writeKinds (handleSummary env).1).count WriteKind.body = 1
    ∧ (writeKinds (handleSummary env).1).count WriteKind.styling = 1
    ∧ Event.logError ("An error occurred: " ++ msg) ∈ (handleSummary env).1 := by
  have hk := handleSummary_success_writeKinds env ts ls fp h1 h2 h3 h4 h5
  have hs := handleSummary_success_shape env ts ls fp h1 h2 h3 h4 h5
  refine ⟨?_, ?_, ?_, ?_⟩
  · rw [hs]
  · rw [hk]; decide
  · rw [hk]; decide
  · rw [hs]
    exact List.mem_cons_of_mem _ (List.mem_append_left _ (List.mem_append_left _
      (List.mem_append_right _
        (sendSummaryHeaders_error_log env fp.headerPayload msg h6))))

/-- C2 witness: a concrete run whose header write fails still performs the
body and styling writes and completes successfully. -/
theorem header_write_failure_is_isolated_witness :
    (handleSummary envHeaderFail).2 = Except.ok ()
    ∧ (writeKinds (handleSummary envHeaderFail).1).count WriteKind.body = 1
    ∧ (writeKinds (handleSummary envHeaderFail).1).count WriteKind.styling = 1
    ∧ Event.logError ("An error occurred: " ++ "quota")
        ∈ (handleSummary envHeaderFail).1 :=
  header_write_failure_is_isolated envHeaderFail ["Jan-1", "Jan-2"]
    ["Jan-1", "Jan-2"] samplePayload "quota" rfl rfl rfl rfl rfl rfl

/-- C3: every run that reaches the write phase (i.e. every successful run)
performs the three writes in the strict fixed order: header values first,
then body cells, then header styling, each step completing before the next
begins (the trace is a sequential list of settled calls). -/
theorem write_steps_strict_order (env : Env)
    (h : (handleSummary env).2 = Except.ok ()) :
    writeKinds (handleSummary env).1
      = [WriteKind.header, WriteKind.body, WriteKind.styling] := by
  obtain ⟨ts, ls, fp, h1, h2, h3, h4, h5⟩ := handleSummary_ok_inv env h
  exact handleSummary_success_writeKinds env ts ls fp h1 h2 h3 h4 h5

/-- C3 witness: the all-success run performs header, body, styling in
order. -/
theorem write_steps_strict_order_witness :
    writeKinds (handleSummary envA).1
      = [WriteKind.header, WriteKind.body, WriteKind.styling] :=
  write_steps_strict_order envA rfl

/-- C4: for a non-empty body payload, the planned row count is exactly the
maximum destination `endRowIndex` over the entries, and it is independent of
the order of the entries. -/
theorem rows_are_max_endRowIndex (payload : List BodyEntry) (h : payload ≠ []) :
    (∃ m : Int, numberOfRowsNeeded payload = JsNum.int m
      ∧ m ∈ payload.map (fun item => item.copyPaste.destination.endRowIndex)
      ∧ ∀ x ∈ payload.map (fun item => item.copyPaste.destination.endRowIndex),
          x ≤ m)
    ∧ ∀ q : List BodyEntry, payload.Perm q →
        numberOfRowsNeeded q = numberOfRowsNeeded payload := by
  constructor
  · exact jsMathMax_spec _ (by simpa using h)
  · intro q hq
    exact (jsMathMax_perm
      (hq.map (fun item => item.copyPaste.destination.endRowIndex))).symm

/-- C4 witness: on end rows 5, 12, 8 the planned row count is the maximum,
12. -/
theorem rows_are_max_endRowIndex_witness :
    sampleBody ≠ []
    ∧ ((∃ m : Int, numberOfRowsNeeded sampleBody = JsNum.int m
        ∧ m ∈ sampleBody.map (fun item => item.copyPaste.destination.endRowIndex)
        ∧ ∀ x ∈ sampleBody.map
            (fun item => item.copyPaste.destination.endRowIndex), x ≤ m)
      ∧ ∀ q : List BodyEntry, sampleBody.Perm q →
          numberOfRowsNeeded q = numberOfRowsNeeded sampleBody) :=
  ⟨by decide, rows_are_max_endRowIndex sampleBody (by decide)⟩

/-- C5: whenever the destination-tab lookup succeeds, the resize request that
the dimension planner issues asks for exactly
`len(priorPeriodTitles) * len(headerIndicatorCategories)` columns — for every
pair of lists, including empty ones. -/
theorem resize_columns_are_product (env : Env) (t : String)
    (ls hi : List String) (p : List BodyEntry) (d : String) (tid : Nat)
    (h : env.getTabIdFromTitle d = Except.ok tid) :
    Event.resize tid (ls.length * hi.length) (numberOfRowsNeeded p)
      ∈ (addColumnsAndRows env t ls hi p d).1 :=
  addColumnsAndRows_resize_mem env t ls hi p d tid h

/-- C5 witness: 2 prior titles and 2 indicator categories yield a resize
request for 4 columns. -/
theorem resize_columns_are_product_witness :
    envA.getTabIdFromTitle "Summary Jan" = Except.ok 7
    ∧ Event.resize 7 4 (numberOfRowsNeeded sampleBody)
        ∈ (addColumnsAndRows envA "Summary Jan" ["Jan-1", "Jan-2"]
            ["Hours", "Cost"] sampleBody "Summary Jan").1 :=
  ⟨rfl, resize_columns_are_product envA "Summary Jan" ["Jan-1", "Jan-2"]
    ["Hours", "Cost"] sampleBody "Summary Jan" 7 rfl⟩

/-- C6 counterexample: a run with an empty body payload does not fail with a
planning error and does not abort before provisioning — `Math.max()` over no
values is `-Infinity`, the resize request is still issued (with `-Infinity`
rows) and the whole pipeline completes successfully. -/
theorem empty_body_no_planning_error :
    (handleSummary env0).2 = Except.ok ()
    ∧ Event.resize 7 4 JsNum.negInf ∈ (handleSummary env0).1 :=
  ⟨rfl, by decide⟩

/-- C6 amended: with an empty body payload the dimension computation does not
fail; `Math.max()` over no values yields `-Infinity`, so once the upstream
collaborators succeed and the tab lookup resolves, the pipeline still issues
the resize request, with `-Infinity` as the requested row count. -/
theorem empty_body_resize_still_issued (env : Env) (ts ls : List String)
    (fp : FullSummaryPayload) (tid : Nat)
    (h1 : env.getExistingTabTitlesInRange = Except.ok ts)
    (h2 : env.getLastMonthTabTitles ts = Except.ok ls)
    (h3 : env.createNewTab env.createSummaryTitle = Except.ok ())
    (h4 : env.constructPayloadForCopyPaste ls env.createSummaryTitle = Except.ok fp)
    (h5 : fp.bodyPayload = [])
    (h6 : env.getTabIdFromTitle env.createSummaryTitle = Except.ok tid) :
    Event.resize tid (ls.length * env.headerIndicators.length) JsNum.negInf
      ∈ (handleSummary env).1 := by
  have hrows : numberOfRowsNeeded fp.bodyPayload = JsNum.negInf := by
    rw [h5]; rfl
  rw [← hrows]
  exact handleSummary_prov_trace_mem env ts ls fp h1 h2 h3 h4 _
    (addColumnsAndRows_resize_mem env env.createSummaryTitle ls
      env.headerIndicators fp.bodyPayload env.createSummaryTitle tid h6)

/-- C6 amended witness: the concrete empty-body run issues the resize request
with `-Infinity` rows. -/
theorem empty_body_resize_still_issued_witness :
    samplePayloadEmptyBody.bodyPayload = []
    ∧ Event.resize 7 (["Jan-1", "Jan-2"].length * env0.headerIndicators.length)
        JsNum.negInf ∈ (handleSummary env0).1 :=
  ⟨rfl, empty_body_resize_still_issued env0 ["Jan-1", "Jan-2"] ["Jan-1", "Jan-2"]
    samplePayloadEmptyBody 7 rfl rfl rfl rfl rfl rfl⟩

/-- C7: the optional fourth write step (grid styling, `sendSummaryGrid`) is
never invoked by `handleSummary` — zero grid writes occur in every run,
whatever the environment — while the capability remains present in the
module: calling `sendSummaryGrid` directly performs exactly one grid
write. -/
theorem grid_step_never_invoked (env : Env) (p : GridRequest) :
    (writeKinds (handleSummary env).1).count WriteKind.grid = 0
    ∧ writeKinds (sendSummaryGrid env p) = [WriteKind.grid] := by
  constructor
  · rcases handleSummary_writeKinds_cases env with h | h <;> rw [h] <;> rfl
  · exact sendSummaryGrid_writeKinds env p

/-- C8: the write payload is built once and only read afterwards: in a run
whose provisioning succeeds, the planner and provisioner compute from
`bodyPayload` exactly as constructed, and each write step receives exactly
the corresponding field of the constructed payload, unchanged. -/
theorem payload_read_only_by_stages (env : Env) (ts ls : List String)
    (fp : FullSummaryPayload)
    (h1 : env.getExistingTabTitlesInRange = Except.ok ts)
    (h2 : env.getLastMonthTabTitles ts = Except.ok ls)
    (h3 : env.createNewTab env.createSummaryTitle = Except.ok ())
    (h4 : env.constructPayloadForCopyPaste ls env.createSummaryTitle = Except.ok fp)
    (h5 : (addColumnsAndRows env env.createSummaryTitle ls env.headerIndicators
        fp.bodyPayload env.createSummaryTitle).2 = Except.ok ()) :
    (∃ tid : Nat,
        Event.resize tid (numberOfColumnsNeeded ls env.headerIndicators)
          (numberOfRowsNeeded fp.bodyPayload) ∈ (handleSummary env).1)
    ∧ Event.valuesUpdate fp.headerPayload ∈ (handleSummary env).1
    ∧ Event.batchUpdate true [BatchPayload.bodyList fp.bodyPayload]
        ∈ (handleSummary env).1
    ∧ Event.batchUpdate false [BatchPayload.style fp.summaryHeaderStylePayload]
        ∈ (handleSummary env).1 := by
  have hs := handleSummary_success_shape env ts ls fp h1 h2 h3 h4 h5
  obtain ⟨tid, hl, htr⟩ := addColumnsAndRows_ok_inv env env.createSummaryTitle ls
    env.headerIndicators fp.bodyPayload env.createSummaryTitle h5
  refine ⟨⟨tid, ?_⟩, ?_, ?_, ?_⟩
  · exact handleSummary_prov_trace_mem env ts ls fp h1 h2 h3 h4 _
      (addColumnsAndRows_resize_mem env env.createSummaryTitle ls
        env.headerIndicators fp.bodyPayload env.createSummaryTitle tid hl)
  · rw [hs]
    exact List.mem_cons_of_mem _ (List.mem_append_left _ (List.mem_append_left _
      (List.mem_append_right _ (sendSummaryHeaders_call_mem env fp.headerPayload))))
  · rw [hs]
    exact List.mem_cons_of_mem _ (List.mem_append_left _
      (List.mem_append_right _ (sendSummaryBody_call_mem env fp.bodyPayload)))
  · rw [hs]
    exact List.mem_cons_of_mem _ (List.mem_append_right _
      (summaryHeaderStyling_call_mem env fp.summaryHeaderStylePayload))

/-- C8 witness: in the all-success run every stage observes exactly the
constructed payload's fields. -/
theorem payload_read_only_by_stages_witness :
    (∃ tid : Nat,
        Event.resize tid
          (numberOfColumnsNeeded ["Jan-1", "Jan-2"] envA.headerIndicators)
          (numberOfRowsNeeded samplePayload.bodyPayload)
          ∈ (handleSummary envA).1)
    ∧ Event.valuesUpdate samplePayload.headerPayload ∈ (handleSummary envA).1
    ∧ Event.batchUpdate true [BatchPayload.bodyList samplePayload.bodyPayload]
        ∈ (handleSummary envA).1
    ∧ Event.batchUpdate false
        [BatchPayload.style samplePayload.summaryHeaderStylePayload]
        ∈ (handleSummary envA).1 :=
  payload_read_only_by_stages envA ["Jan-1", "Jan-2"] ["Jan-1", "Jan-2"]
    samplePayload rfl rfl rfl rfl rfl

/-- C9: whatever fails inside provisioning (the title-to-id lookup or the
resize request), the error propagated by `addColumnsAndRows` is always the
fixed message 'Unable to add columns and rows to the sheet.'; the underlying
cause appears only in the log, so the caller cannot distinguish the failure
modes by the thrown value. -/
theorem provisioning_error_message_is_fixed (env : Env) (t : String)
    (ls hi : List String) (p : List BodyEntry) (d : String) :
    (addColumnsAndRows env t ls hi p d).2 = Except.ok ()
    ∨ ((addColumnsAndRows env t ls hi p d).2
          = Except.error "Unable to add columns and rows to the sheet."
        ∧ ∃ cause,
            Event.logError ("Error in adding columns and rows: " ++ cause)
              ∈ (addColumnsAndRows env t ls hi p d).1) := by
  unfold addColumnsAndRows
  rcases h1 : env.getTabIdFromTitle d with e | tid
  · right
    exact ⟨rfl, e, by simp⟩
  · dsimp only
    rcases h2 : env.addColumnsAndRowsToTabId tid (numberOfColumnsNeeded ls hi)
        (numberOfRowsNeeded p) with e | u
    · right
      exact ⟨rfl, e, by simp⟩
    · left
      rfl

/-- C10: the body write ignores the second argument that `handleSummary`
passes at its call site (`sendSummaryBody` declares a single parameter): for
any two runs differing only in that argument, the issued request and the
outcome are identical. -/
theorem body_write_ignores_second_argument (env : Env)
    (payload : List BodyEntry) (t1 t2 : String) :
    sendSummaryBodyCall env payload t1 = sendSummaryBodyCall env payload t2 := rfl

end CyShadowReport
